import Mathlib

/-!
Verification of the background tracking session engine of the
viewermetrics browser extension.

The definitions below are a shallow embedding of the background script
(ApiManager, timeout utilities, and BackgroundService).  JavaScript
numbers are modelled as Nat (timestamps, counts, milliseconds) or as
Rat where the source computes fractional ratios; the fractional minute
constants of calculateAutoTimeout are modelled exactly in units of one
thousandth of a minute (the source multiplies by 60000 at the end, so
one milli-minute is 60 ms and every value is integral).  Falsy checks
on numbers (the JavaScript pattern x || d) are modelled by comparison
with zero.
-/

namespace ViewerMetrics

/-- JavaScript defaulting idiom x || d on numbers: 0 is falsy. -/
def orD (x d : Nat) : Nat := if x = 0 then d else x

/-- JavaScript defaulting idiom x || d on fractional numbers. -/
def orQ (x d : Rat) : Rat := if x = 0 then d else x

/-!
## Timeout utility functions (top of the background script)

calculateAutoTimeout returns null when the count is falsy, otherwise a
tiered number of minutes plus a one minute base, converted to
milliseconds.  The source works in fractional minutes
(0.75, 1, 1.5, 2 + k * 0.167); we work in milli-minutes
(750, 1000, 1500, 2000 + k * 167) and multiply by 60 instead of 60000,
which is the same exact value.
-/

/-- Embedding of calculateAutoTimeout: result in milliseconds, none when
the authenticated count is falsy (zero). -/
def calculateAutoTimeout (totalAuthenticatedCount : Nat) : Option Nat :=
  if totalAuthenticatedCount = 0 then
    none
  else
    let timeoutMilliMinutes :=
      if totalAuthenticatedCount < 1000 then 750
      else if totalAuthenticatedCount < 5000 then 1000
      else if totalAuthenticatedCount < 15000 then 1500
      else 2000 + ((totalAuthenticatedCount - 15000) / 10000) * 167
    let baseMilliMinutes := 1000
    some ((timeoutMilliMinutes + baseMilliMinutes) * 60)

/-- Embedding of calculateAutoRequestInterval: tiered request interval in
milliseconds, none when the authenticated count is falsy (zero). -/
def calculateAutoRequestInterval (totalAuthenticatedCount : Nat) : Option Nat :=
  if totalAuthenticatedCount = 0 then none
  else if totalAuthenticatedCount < 1000 then some 5000
  else if totalAuthenticatedCount < 5000 then some 2000
  else some 1000

/-!
## Session data model (BackgroundService.startBackgroundTracking)
-/

/-- Session configuration after default filling in startBackgroundTracking. -/
structure SessionConfig where
  refreshInterval : Nat
  requestInterval : Nat
  timeoutDuration : Nat
  batchSize : Nat
  concurrentUserInfoBatches : Nat
  viewerListConcurrentCallsInitial : Nat
  viewerListConcurrentCallsReduced : Nat
  viewerListNewUserThresholdLow : Rat
  viewerListNewUserThresholdHigh : Rat
  autoAdjustTimeout : Bool
  autoAdjustRequestInterval : Bool
  viewerListAutoAdjust : Bool
  deriving Repr, DecidableEq

/-- A tracked viewer entry of the session viewer map. -/
structure Viewer where
  username : String
  firstSeen : Nat
  lastSeen : Nat
  deriving Repr, DecidableEq

/-- One (newUsers, totalViewers) sample of metadata.recentNewUserCounts. -/
structure NewUserSample where
  timestamp : Nat
  newUsers : Nat
  totalViewers : Nat
  deriving Repr, DecidableEq

/-- The metadata fields of a session that the verified operations read. -/
structure SessionMetadata where
  authenticatedCount : Nat
  viewerListConcurrentCalls : Nat
  recentNewUserCounts : List NewUserSample
  deriving Repr, DecidableEq

/-- Communication failure tracking of a session. -/
structure CommFailures where
  count : Nat
  firstFailure : Option Nat
  lastFailure : Option Nat
  deriving Repr, DecidableEq

/-- A tracking session.  The intervals map of the source stores opaque
interval ids returned by setInterval; the shallow embedding stores for
each named timer the cadence in milliseconds it was created with, which
is the observable content of the timer. -/
structure Session where
  channelName : String
  tabId : Nat
  config : SessionConfig
  intervals : List (String × Nat)
  viewers : List Viewer
  pendingUserInfo : List String
  metadata : SessionMetadata
  commFailures : CommFailures
  isActive : Bool
  paused : Bool
  deriving Repr, DecidableEq

/-- Remove a named timer (clearInterval plus map delete). -/
def removeTimer (l : List (String × Nat)) (name : String) : List (String × Nat) :=
  l.filter (fun p => p.1 ≠ name)

/-- Install a named repeating timer with the given cadence
(session.intervals.set after clearInterval of an existing one). -/
def setTimer (l : List (String × Nat)) (name : String) (cadence : Nat) :
    List (String × Nat) :=
  removeTimer l name ++ [(name, cadence)]

/-- Cadence of a named timer, if running. -/
def lookupTimer (l : List (String × Nat)) (name : String) : Option Nat :=
  match l with
  | [] => none
  | p :: t => if p.1 = name then some p.2 else lookupTimer t name

/-!
## Effective timeout and request interval (BackgroundService)
-/

/-- Embedding of BackgroundService.calculateEffectiveTimeout. -/
def calculateEffectiveTimeout (s : Session) : Nat :=
  if ¬ s.config.autoAdjustTimeout then s.config.timeoutDuration
  else
    match calculateAutoTimeout s.metadata.authenticatedCount with
    | some t => t
    | none => s.config.timeoutDuration

/-- Embedding of BackgroundService.calculateEffectiveRequestInterval.
It delegates to the shared calculateAutoRequestInterval utility. -/
def calculateEffectiveRequestInterval (s : Session) : Nat :=
  if ¬ s.config.autoAdjustRequestInterval then s.config.requestInterval
  else
    match calculateAutoRequestInterval s.metadata.authenticatedCount with
    | some t => t
    | none => s.config.requestInterval

/-- Embedding of BackgroundService.calculateEffectiveIntervalForCount,
the helper used on recomputation; note its tier boundaries (500, 1000)
differ from calculateAutoRequestInterval (1000, 5000). -/
def calculateEffectiveIntervalForCount (s : Session) (authenticatedCount : Nat) :
    Nat :=
  if ¬ s.config.autoAdjustRequestInterval then s.config.requestInterval
  else if authenticatedCount = 0 then s.config.requestInterval
  else if authenticatedCount < 500 then 5000
  else if authenticatedCount < 1000 then 2000
  else 1000

/-- Embedding of BackgroundService.checkAndUpdateRequestInterval.  The
returned Bool records whether the viewerList timer was torn down and
rebuilt during this call. -/
def checkAndUpdateRequestInterval (s : Session) (oldAuthenticatedCount : Nat) :
    Session × Bool :=
  if ¬ s.config.autoAdjustRequestInterval then (s, false)
  else
    let newAuthenticatedCount := s.metadata.authenticatedCount
    let oldEffectiveInterval := calculateEffectiveIntervalForCount s oldAuthenticatedCount
    let newEffectiveInterval := calculateEffectiveIntervalForCount s newAuthenticatedCount
    if oldEffectiveInterval ≠ newEffectiveInterval then
      if (lookupTimer s.intervals "viewerList").isSome then
        ({ s with intervals := setTimer s.intervals "viewerList" newEffectiveInterval },
         true)
      else (s, false)
    else (s, false)

/-- Embedding of BackgroundService.setupBackgroundIntervals: the six
periodic timers of a session, the viewerList one at the effective
request interval computed at establishment time. -/
def setupBackgroundIntervals (s : Session) : Session :=
  let effectiveRequestInterval := calculateEffectiveRequestInterval s
  { s with intervals :=
      [("viewerList", effectiveRequestInterval),
       ("viewerCount", 60000),
       ("userInfo", s.config.refreshInterval),
       ("cleanup", 15000),
       ("apiStatus", 5000),
       ("healthCheck", 10000)] }

/-!
## ApiManager: rate-limited request gateway

The queue drain loop (processConcurrentRequests) is modelled as a step
function plus a fuel-bounded iteration.  Request payload identity is
irrelevant to rate accounting, so the queue is modelled by its length.
The usage-statistics record keeps the timestamps of recorded requests
(capped at the last 1000 entries, oldest evicted first, exactly as
trackDataUsage does).  The field execLog is a ghost history of every
executed request timestamp, used to state the rolling-window property;
the source has no such field and never reads it.
-/

/-- State of the ApiManager relevant to the drain loop.  maxRequests is
5000 and concurrentUserInfoBatches 50 in the constructor; updateConfig
can change the latter. -/
structure ApiState where
  queue : Nat
  recentRequests : List Int
  execLog : List Int
  concurrentUserInfoBatches : Nat
  maxRequests : Nat
  deriving Repr, DecidableEq

/-- Number of recorded requests inside the trailing 60 second window
(the filter on dataStats.recentRequests). -/
def requestsInLastMinute (now : Int) (recent : List Int) : Nat :=
  (recent.filter (fun t => now - 60000 < t)).length

/-- Embedding of trackDataUsage restricted to the recentRequests record:
append the new timestamp and evict the oldest entry beyond 1000. -/
def trackDataUsage (now : Int) (recent : List Int) : List Int :=
  let recent := recent ++ [now]
  if 1000 < recent.length then recent.tail else recent

/-- Record n requests executed at the same instant (each executed
request of a batch calls trackDataUsage once on completion). -/
def trackDataUsageN (now : Int) : Nat → List Int → List Int
  | 0, recent => recent
  | n + 1, recent => trackDataUsageN now n (trackDataUsage now recent)

/-- Execute a batch of n dequeued requests at time now: they leave the
queue, are recorded into the usage statistics, and (ghost) appended to
the execution history. -/
def executeBatch (now : Int) (n : Nat) (s : ApiState) : ApiState :=
  { s with
    queue := s.queue - n
    recentRequests := trackDataUsageN now n s.recentRequests
    execLog := s.execLog ++ List.replicate n now }

/-- What one iteration of the drain loop did. -/
inductive DrainAction where
  | idle
  | wait
  | execute (n : Nat)
  deriving Repr, DecidableEq

/-- One iteration of the while loop of processConcurrentRequests at
time now: exit when the queue is empty; if the rolling-window count is
at or above maxRequests, wait one second; otherwise dequeue
min(concurrentUserInfoBatches, maxRequests - windowCount, queueLength)
requests and execute them concurrently. -/
def drainStep (now : Int) (s : ApiState) : ApiState × DrainAction :=
  if s.queue = 0 then (s, .idle)
  else
    let requestsLastMinute := requestsInLastMinute now s.recentRequests
    if s.maxRequests ≤ requestsLastMinute then (s, .wait)
    else
      let maxConcurrent :=
        min s.concurrentUserInfoBatches
          (min (s.maxRequests - requestsLastMinute) s.queue)
      if maxConcurrent = 0 then (s, .idle)
      else (executeBatch now maxConcurrent s, .execute maxConcurrent)

/-- Fuel-bounded iteration of the drain loop with a constant clock (a
run in which the loop body executes quickly relative to the clock). -/
def processLoop (now : Int) : Nat → ApiState → ApiState
  | 0, s => s
  | fuel + 1, s =>
    match drainStep now s with
    | (_, .idle) => s
    | (s', .wait) => processLoop now fuel s'
    | (s', .execute _) => processLoop now fuel s'

/-!
## ApiManager.getViewerListParallel: parallel roster fetch

The remote backend is abstracted as a function from a pagination cursor
to the community edges of the page at that cursor; the already-fetched
initial page and the reported total are further inputs.  The ghost
fields payloads and issuedBatches record the cursors of the payloads
built and of the page requests actually issued.
-/

/-- One edge of a CommunityTab response page. -/
structure CommunityEdge where
  login : String
  cursor : String
  deriving Repr, DecidableEq

/-- Embedding of the payload-building loop: currentCursor is initialised
to the initial cursor and, as in the source, never reassigned, so every
payload carries the same cursor. -/
def buildPayloads (currentCursor : String) : Nat → List String
  | 0 => []
  | n + 1 => currentCursor :: buildPayloads currentCursor n

/-- Split a list into consecutive chunks of size n (the slice stepping
of the batch loop).  The n = 0 case is a degenerate guard: the source
loop would not terminate there, and no claim concerns it. -/
def chunksOf (n : Nat) (l : List α) : List (List α) :=
  match n, l with
  | _, [] => []
  | 0, l => [l]
  | n + 1, x :: xs =>
    (x :: xs).take (n + 1) :: chunksOf (n + 1) ((x :: xs).drop (n + 1))
termination_by l.length
decreasing_by simp [List.length_drop]; omega

/-- Usernames contributed by issuing one batch of cursor payloads
against the backend (responses are flattened in order). -/
def batchLogins (pageFetch : String → List CommunityEdge)
    (batch : List String) : List String :=
  batch.flatMap (fun cursor => (pageFetch cursor).map (·.login))

/-- Result of the batch loop together with the ghost list of issued
batches. -/
structure RosterLoopResult where
  viewers : List String
  issuedBatches : List (List String)
  deriving Repr, DecidableEq

/-- Embedding of the batch loop of getViewerListParallel: issue each
batch, append all its usernames, and break once the accumulated count
reaches the reported total. -/
def rosterLoop (pageFetch : String → List CommunityEdge) (total : Nat) :
    List (List String) → List String → RosterLoopResult
  | [], viewers => ⟨viewers, []⟩
  | batch :: rest, viewers =>
    let viewers := viewers ++ batchLogins pageFetch batch
    if total ≤ viewers.length then ⟨viewers, [batch]⟩
    else
      let r := rosterLoop pageFetch total rest viewers
      ⟨r.viewers, batch :: r.issuedBatches⟩

/-- First-occurrence-order deduplication, the embedding of
Array.from(new Set(viewers)). -/
def dedupFirst : List String → List String
  | [] => []
  | x :: xs => x :: (dedupFirst xs).filter (fun y => y ≠ x)

/-- Result of getViewerListParallel with ghost request accounting. -/
structure RosterFetchResult where
  viewers : List String
  totalAuthenticatedCount : Nat
  issuedBatches : List (List String)
  payloads : List String
  deriving Repr, DecidableEq

/-- Embedding of getViewerListParallel after the initial page request:
initialEdges and totalAuthenticatedCount are the edges and totalCount
of the initial response, pageFetch the backend, concurrentCalls the
argument and concurrentUserInfoBatches the manager configuration. -/
def getViewerListParallel (pageFetch : String → List CommunityEdge)
    (initialEdges : List CommunityEdge) (totalAuthenticatedCount : Nat)
    (concurrentCalls concurrentUserInfoBatches : Nat) : RosterFetchResult :=
  match initialEdges.getLast? with
  | none => ⟨initialEdges.map (·.login), totalAuthenticatedCount, [], []⟩
  | some lastEdge =>
    if totalAuthenticatedCount ≤ 100 then
      ⟨initialEdges.map (·.login), totalAuthenticatedCount, [], []⟩
    else
      let initialCursor := lastEdge.cursor
      let pageSize := 100
      let remainingViewers := totalAuthenticatedCount - initialEdges.length
      let pagesNeeded := (remainingViewers + (pageSize - 1)) / pageSize
      let payloads := buildPayloads initialCursor pagesNeeded
      let batchSize := min concurrentCalls concurrentUserInfoBatches
      let initialViewers := initialEdges.map (·.login)
      let r := rosterLoop pageFetch totalAuthenticatedCount
        (chunksOf batchSize payloads) initialViewers
      ⟨dedupFirst r.viewers, totalAuthenticatedCount, r.issuedBatches, payloads⟩

/-- Definition following the words of the specification, for comparison
with the source embedding: payload cursors chained, the cursor of each
additional page taken from the last edge of the page fetched just
before it. -/
def chainedPayloadsSpec (pageFetch : String → List CommunityEdge)
    (cursor : String) : Nat → List String
  | 0 => []
  | n + 1 =>
    cursor ::
      match (pageFetch cursor).getLast? with
      | some e => chainedPayloadsSpec pageFetch e.cursor n
      | none => []

/-!
## Adaptive viewer-list concurrency (BackgroundService)
-/

/-- Last n elements of a list (the slice with negative start used on
recentNewUserCounts). -/
def lastN (n : Nat) (l : List α) : List α := l.drop (l.length - n)

/-- The trailing window of at most 10 samples used by the adaptive
concurrency computation. -/
def recentSampleWindow (s : Session) : List NewUserSample :=
  lastN 10 s.metadata.recentNewUserCounts

/-- The new-user discovery rate over the trailing sample window:
average new users divided by average total viewers, zero when the
latter average is not positive. -/
def newUserRate (s : Session) : Rat :=
  let recentCounts := recentSampleWindow s
  let avgNewUsers : Rat :=
    ((recentCounts.map (·.newUsers)).sum : Nat) / (recentCounts.length : Nat)
  let avgTotalViewers : Rat :=
    ((recentCounts.map (·.totalViewers)).sum : Nat) / (recentCounts.length : Nat)
  if 0 < avgTotalViewers then avgNewUsers / avgTotalViewers else 0

/-- Embedding of BackgroundService.calculateOptimalViewerListConcurrency. -/
def calculateOptimalViewerListConcurrency (s : Session) : Nat :=
  let metadata := s.metadata
  let config := s.config
  if ¬ config.viewerListAutoAdjust then
    orD metadata.viewerListConcurrentCalls
      (orD config.viewerListConcurrentCallsInitial 50)
  else
    let currentCalls := orD metadata.viewerListConcurrentCalls
      (orD config.viewerListConcurrentCallsInitial 50)
    let reducedCalls := orD config.viewerListConcurrentCallsReduced 10
    let initialCalls := orD config.viewerListConcurrentCallsInitial 50
    let thresholdLow := orQ config.viewerListNewUserThresholdLow (5 / 100)
    let thresholdHigh := orQ config.viewerListNewUserThresholdHigh (10 / 100)
    if metadata.recentNewUserCounts.length < 5 then initialCalls
    else if newUserRate s < thresholdLow ∧ reducedCalls < currentCalls then
      reducedCalls
    else if thresholdHigh < newUserRate s ∧ currentCalls < initialCalls then
      initialCalls
    else currentCalls

/-- Embedding of BackgroundService.updateViewerListConcurrency: push the
new sample (record capped at 20), recompute the optimal concurrency and
store it when it changed. -/
def updateViewerListConcurrency (s : Session) (now : Nat)
    (newUsersCount totalViewersCount : Nat) : Session :=
  let samples := s.metadata.recentNewUserCounts ++
    [⟨now, newUsersCount, totalViewersCount⟩]
  let samples := if 20 < samples.length then samples.tail else samples
  let s := { s with metadata := { s.metadata with recentNewUserCounts := samples } }
  let optimalCalls := calculateOptimalViewerListConcurrency s
  if optimalCalls ≠ s.metadata.viewerListConcurrentCalls then
    { s with metadata := { s.metadata with viewerListConcurrentCalls := optimalCalls } }
  else s

/-!
## Eviction sweep (BackgroundService.backgroundCleanupViewers)
-/

/-- The delta message sent to the consumer after a sweep that removed
viewers: only removed usernames and the new total, never the roster. -/
structure CleanupUpdate where
  removedCount : Nat
  removedUsernames : List String
  totalViewerCount : Nat
  deriving Repr, DecidableEq

/-- The shouldRemove condition of the sweep: time since last seen
strictly exceeds the effective timeout. -/
def viewerExpired (now effectiveTimeout : Nat) (v : Viewer) : Bool :=
  effectiveTimeout < now - v.lastSeen

/-- The sweep loop: partition the viewer map entries into those kept
and the usernames of those removed because now minus lastSeen exceeds
the effective timeout. -/
def cleanupSplit (now effectiveTimeout : Nat) :
    List Viewer → List Viewer × List String
  | [] => ([], [])
  | v :: rest =>
    let (keep, removed) := cleanupSplit now effectiveTimeout rest
    if viewerExpired now effectiveTimeout v then (keep, v.username :: removed)
    else (v :: keep, removed)

/-- Embedding of backgroundCleanupViewers: evict timed-out viewers from
both the viewer map and the pending-enrichment set and report a delta
update when anything was removed. -/
def backgroundCleanupViewers (s : Session) (now : Nat) :
    Session × Option CleanupUpdate :=
  let effectiveTimeout := calculateEffectiveTimeout s
  let (keep, removedUsernames) := cleanupSplit now effectiveTimeout s.viewers
  let s' := { s with
    viewers := keep
    pendingUserInfo :=
      s.pendingUserInfo.filter (fun u => !(removedUsernames.contains u)) }
  if removedUsernames.length = 0 then (s', none)
  else (s', some ⟨removedUsernames.length, removedUsernames, keep.length⟩)

/-!
## Session supervisor: registry and lifecycle commands

trackingSessions is a Map from channel name to session; it is modelled
as an association list with the JavaScript Map.set semantics (update in
place when the key exists, append otherwise).  Command results carry
the success flag and the optional message of the source responses.
Ghost outputs record externally observable actions: the timers cleared
by clearInterval and the displacement notifications sent to tabs.
-/

/-- The supervisor state: the per-channel tracking session registry. -/
structure BgState where
  trackingSessions : List (String × Session)
  deriving Repr, DecidableEq

/-- Association-list lookup with plain propositional key comparison
(the Map.get embedding). -/
def lookupChannel (l : List (String × Session)) (ch : String) : Option Session :=
  match l with
  | [] => none
  | p :: t => if p.1 = ch then some p.2 else lookupChannel t ch

/-- Registry lookup (trackingSessions.get). -/
def getSession (st : BgState) (channelName : String) : Option Session :=
  lookupChannel st.trackingSessions channelName

/-- Map.set semantics on the association list. -/
def mapSet (l : List (String × Session)) (k : String) (v : Session) :
    List (String × Session) :=
  if l.any (fun p => p.1 = k) then
    l.map (fun p => if p.1 = k then (k, v) else p)
  else l ++ [(k, v)]

/-- A command response: success flag plus optional message. -/
structure CommandResult where
  success : Bool
  message : Option String
  deriving Repr, DecidableEq

/-- Embedding of stopBackgroundTracking.  The third component is the
ghost list of timers cleared by the clearInterval loop.  Stopping an
unknown channel is a success no-op. -/
def stopBackgroundTracking (st : BgState) (channelName : String) :
    BgState × CommandResult × List (String × Nat) :=
  match getSession st channelName with
  | none => (st, ⟨true, some "No active tracking session"⟩, [])
  | some session =>
    (⟨st.trackingSessions.filter (fun p => p.1 ≠ channelName)⟩,
     ⟨true, none⟩,
     session.intervals)

/-- Embedding of pauseBackgroundTracking: unknown channel is a failure
with no effect, otherwise the paused flag is set. -/
def pauseBackgroundTracking (st : BgState) (channelName : String) :
    BgState × CommandResult :=
  match getSession st channelName with
  | none => (st, ⟨false, some "No active tracking session"⟩)
  | some session =>
    (⟨mapSet st.trackingSessions channelName { session with paused := true }⟩,
     ⟨true, none⟩)

/-- Embedding of resumeBackgroundTracking: unknown channel is a failure
with no effect, otherwise the paused flag is cleared and an immediate
roster and count fetch is triggered.  The fetches are network effects;
the Bool ghost output records only whether they were triggered. -/
def resumeBackgroundTracking (st : BgState) (channelName : String) :
    BgState × CommandResult × Bool :=
  match getSession st channelName with
  | none => (st, ⟨false, some "No active tracking session"⟩, false)
  | some session =>
    (⟨mapSet st.trackingSessions channelName { session with paused := false }⟩,
     ⟨true, none⟩,
     true)

/-- A displacement notification (TRACKING_STOPPED_BY_OTHER_TAB) sent to
the tab of a superseded session. -/
structure StoppedNotice where
  tabId : Nat
  stoppedChannel : String
  newChannel : String
  deriving Repr, DecidableEq

/-- The fresh session record built by startBackgroundTracking, with the
six periodic timers established.  Default filling of the configuration
object is elided: config is the already-normalized configuration. -/
def mkSession (channelName : String) (tabId : Nat) (config : SessionConfig) :
    Session :=
  setupBackgroundIntervals
    { channelName := channelName
      tabId := tabId
      config := config
      intervals := []
      viewers := []
      pendingUserInfo := []
      metadata :=
        { authenticatedCount := 0
          viewerListConcurrentCalls := config.viewerListConcurrentCallsInitial
          recentNewUserCounts := [] }
      commFailures := ⟨0, none, none⟩
      isActive := true
      paused := false }

/-- The body of the loop of startBackgroundTracking over the existing
channels: stop the session, then (as in the source) look the stopped
channel up in the registry again to notify its tab of displacement. -/
def startStopStep (channelName : String) (tabId : Nat)
    (acc : BgState × List StoppedNotice) (existingChannel : String) :
    BgState × List StoppedNotice :=
  let (st, notices) := acc
  let (st, _result, _cleared) := stopBackgroundTracking st existingChannel
  match getSession st existingChannel with
  | some existingSession =>
    if existingSession.tabId ≠ tabId then
      (st, notices ++ [⟨existingSession.tabId, existingChannel, channelName⟩])
    else (st, notices)
  | none => (st, notices)

/-- Embedding of startBackgroundTracking: stop every existing session
first, notifying the displaced tabs, then install the new session and
its timers.  The notice list is the ghost record of displacement
notifications actually sent. -/
def startBackgroundTracking (st : BgState) (channelName : String)
    (config : SessionConfig) (tabId : Nat) :
    BgState × List StoppedNotice × CommandResult :=
  let existingSessions := st.trackingSessions.map (·.1)
  let stopAll := existingSessions.foldl (startStopStep channelName tabId) (st, [])
  let (st1, notices) := stopAll
  let session := mkSession channelName tabId config
  (⟨mapSet st1.trackingSessions channelName session⟩, notices, ⟨true, none⟩)

/-!
## Consumer push and failure handling (sendTrackingUpdate)

A push attempt is modelled by the two transport outcomes (primary tab
messaging, fallback runtime messaging) and the clock value at the
attempt.  The Bool result records whether this call stopped the
session.  Push attempts originate from the session timers, so once the
session and its timers are gone no attempt occurs: the trace runner
makes a vanished session a no-op step.
-/

/-- Embedding of sendTrackingUpdate for the session of a channel:
success over either transport resets the failure tracking; failure of
both increments it, records first and last failure times, and stops the
session once failures have persisted beyond 30 seconds. -/
def sendTrackingUpdate (st : BgState) (channelName : String) (now : Nat)
    (tabSendOk runtimeSendOk : Bool) : BgState × Bool :=
  match getSession st channelName with
  | none => (st, false)
  | some session =>
    if tabSendOk ∨ runtimeSendOk then
      (⟨mapSet st.trackingSessions channelName
          { session with commFailures := ⟨0, none, none⟩ }⟩,
       false)
    else
      let firstFailure :=
        match session.commFailures.firstFailure with
        | none => now
        | some f => f
      let session' := { session with
        commFailures :=
          ⟨session.commFailures.count + 1, some firstFailure, some now⟩ }
      let st' : BgState := ⟨mapSet st.trackingSessions channelName session'⟩
      if 30000 < now - firstFailure then
        let (st'', _result, _cleared) := stopBackgroundTracking st' channelName
        (st'', true)
      else (st', false)

/-- One push-attempt event: clock value and the two transport outcomes. -/
structure PushEvent where
  now : Nat
  tabSendOk : Bool
  runtimeSendOk : Bool
  deriving Repr, DecidableEq

/-- Run a sequence of push attempts, counting how many of them stopped
the session. -/
def runCommTrace (st : BgState) (channelName : String) :
    List PushEvent → BgState × Nat
  | [] => (st, 0)
  | ev :: rest =>
    let (st', stopped) := sendTrackingUpdate st channelName ev.now
      ev.tabSendOk ev.runtimeSendOk
    let (stFinal, n) := runCommTrace st' channelName rest
    (stFinal, (if stopped then 1 else 0) + n)

/-- A trace of push attempts that all fail on both transports. -/
def failTrace (times : List Nat) : List PushEvent :=
  times.map (fun t => ⟨t, false, false⟩)

/-!
## Specification-side definitions

These two definitions follow the words of the claims (not the source)
and exist only to be compared against the source embedding.
-/

/-- Modelled from the claim wording of C4: request-interval tiers with
boundaries 500 and 1000, claimed to apply also at timer establishment. -/
def claimRequestIntervalSpec (authenticatedCount : Nat) : Nat :=
  if authenticatedCount < 500 then 5000
  else if authenticatedCount < 1000 then 2000
  else 1000

/-- Modelled from the claim wording of C5: tier amount with 10 seconds
per additional 10000 users beyond 15000, plus the flat 60 second base. -/
def claimTimeoutSpec (authenticatedCount : Nat) : Nat :=
  (if authenticatedCount < 1000 then 45000
   else if authenticatedCount < 5000 then 60000
   else if authenticatedCount < 15000 then 90000
   else 120000 + ((authenticatedCount - 15000) / 10000) * 10000) + 60000

/-!
## Concrete fixtures used by counterexamples and witnesses
-/

/-- A normalized session configuration with the default values of
startBackgroundTracking and every auto-adjust toggle enabled; the zero
thresholds are falsy and therefore take their per-use defaults. -/
def sampleConfig : SessionConfig :=
  { refreshInterval := 30000
    requestInterval := 30000
    timeoutDuration := 300000
    batchSize := 20
    concurrentUserInfoBatches := 50
    viewerListConcurrentCallsInitial := 50
    viewerListConcurrentCallsReduced := 10
    viewerListNewUserThresholdLow := 0
    viewerListNewUserThresholdHigh := 0
    autoAdjustTimeout := true
    autoAdjustRequestInterval := true
    viewerListAutoAdjust := true }

/-- A session with the sample configuration and a given authenticated
count. -/
def sessionWithCount (authenticatedCount : Nat) : Session :=
  { channelName := "alice"
    tabId := 1
    config := sampleConfig
    intervals := []
    viewers := []
    pendingUserInfo := []
    metadata :=
      { authenticatedCount := authenticatedCount
        viewerListConcurrentCalls := 50
        recentNewUserCounts := [] }
    commFailures := ⟨0, none, none⟩
    isActive := true
    paused := false }

/-- The session at 700 authenticated users with its timers established,
used by the interval recomputation witness. -/
def establishedSession700 : Session :=
  setupBackgroundIntervals (sessionWithCount 700)

/-- The sample configuration with the timeout auto-adjustment disabled. -/
def staticTimeoutConfig : SessionConfig :=
  { sampleConfig with autoAdjustTimeout := false }

/-- A session whose viewer alice timed out long ago while bob is
recent, used by the eviction witness. -/
def cleanupSession : Session :=
  { sessionWithCount 0 with
      config := staticTimeoutConfig
      viewers := [⟨"alice", 0, 0⟩, ⟨"bob", 0, 999000⟩]
      pendingUserInfo := ["alice", "bob"] }

/-- A session with five consecutive zero-discovery samples, used by the
adaptive concurrency witness. -/
def concurrencySession : Session :=
  { sessionWithCount 0 with
      metadata :=
        { authenticatedCount := 0
          viewerListConcurrentCalls := 50
          recentNewUserCounts :=
            [⟨0, 0, 100⟩, ⟨0, 0, 100⟩, ⟨0, 0, 100⟩, ⟨0, 0, 100⟩,
             ⟨0, 0, 100⟩] } }

/-- A registry holding one active session for channel alice owned by
tab 1. -/
def bgAlice : BgState :=
  ⟨[("alice", mkSession "alice" 1 sampleConfig)]⟩

/-- The initial roster page of the small synthetic backend: three edges
whose final cursor is c. -/
def c3Edges : List CommunityEdge :=
  [⟨"u1", "a"⟩, ⟨"u2", "b"⟩, ⟨"u3", "c"⟩]

/-- The small synthetic backend: the page at cursor c ends with cursor
d, and the page at cursor d ends with cursor e. -/
def c3Fetch : String → List CommunityEdge := fun cursor =>
  if cursor = "c" then [⟨"u4", "d"⟩]
  else if cursor = "d" then [⟨"u5", "e"⟩]
  else []

/-!
## Shared registry lemmas
-/

/-- Looking a channel up after filtering out all of its entries yields
nothing. -/
theorem lookup_filter_ne (l : List (String × Session)) (ch : String) :
    lookupChannel (l.filter (fun p => p.1 ≠ ch)) ch = none := by
  induction l with
  | nil => rfl
  | cons p t ih =>
    by_cases h : p.1 = ch
    · simpa [List.filter_cons, h, decide_not] using ih
    · simpa [List.filter_cons, h, lookupChannel, decide_not] using ih

/-- After stopBackgroundTracking the channel has no session. -/
theorem getSession_stop_none (st : BgState) (ch : String) :
    getSession (stopBackgroundTracking st ch).1 ch = none := by
  unfold stopBackgroundTracking
  cases h : getSession st ch with
  | none => simpa using h
  | some s => simpa [getSession] using lookup_filter_ne st.trackingSessions ch

/-- A successful lookup means some entry carries the key. -/
theorem any_of_lookup_some (l : List (String × Session)) (ch : String)
    (s : Session) (h : lookupChannel l ch = some s) :
    l.any (fun p => p.1 = ch) = true := by
  induction l with
  | nil => simp [lookupChannel] at h
  | cons p t ih =>
    by_cases hk : p.1 = ch
    · simp [List.any_cons, hk]
    · rw [lookupChannel, if_neg hk] at h
      simp [List.any_cons, ih h]

/-- Map.set followed by lookup of the same present key yields the new
value. -/
theorem lookup_mapSet_self (l : List (String × Session)) (ch : String)
    (v : Session) (h : l.any (fun p => p.1 = ch) = true) :
    lookupChannel (mapSet l ch v) ch = some v := by
  unfold mapSet
  rw [if_pos h]
  induction l with
  | nil => simp at h
  | cons p t ih =>
    by_cases hk : p.1 = ch
    · simp [lookupChannel, hk]
    · have ht : t.any (fun p => p.1 = ch) = true := by
        simpa [List.any_cons, hk] using h
      simp [lookupChannel, hk, ih ht]

/-!
## C9: idempotent stop
-/

/-- C9: stop-tracking is idempotent.  Stopping an unknown channel is a
success with no state change and no timer cleared; stopping an active
session clears exactly its timers and removes its registry record; a
second consecutive stop is always a success no-op. -/
theorem c9_stop_idempotent (st : BgState) (ch : String) :
    (getSession st ch = none →
      stopBackgroundTracking st ch =
        (st, ⟨true, some "No active tracking session"⟩, [])) ∧
    (∀ s, getSession st ch = some s →
      stopBackgroundTracking st ch =
        (⟨st.trackingSessions.filter (fun p => p.1 ≠ ch)⟩, ⟨true, none⟩,
         s.intervals) ∧
      getSession (stopBackgroundTracking st ch).1 ch = none) ∧
    stopBackgroundTracking (stopBackgroundTracking st ch).1 ch =
      ((stopBackgroundTracking st ch).1,
       ⟨true, some "No active tracking session"⟩, []) := by
  refine ⟨fun h => ?_, fun s h => ?_, ?_⟩
  · simp [stopBackgroundTracking, h]
  · constructor
    · simp [stopBackgroundTracking, h]
    · exact getSession_stop_none st ch
  · have h2 := getSession_stop_none st ch
    set st1 := (stopBackgroundTracking st ch).1 with hst1
    simp [stopBackgroundTracking, h2]

/-- Witness for c9_stop_idempotent at a concrete registry. -/
theorem c9_stop_idempotent_witness :
    stopBackgroundTracking (⟨[]⟩ : BgState) "alice" =
      (⟨[]⟩, ⟨true, some "No active tracking session"⟩, []) :=
  (c9_stop_idempotent ⟨[]⟩ "alice").1 rfl

/-!
## C10: pause and resume on an unknown channel fail without effect
-/

/-- C10: pause-tracking and resume-tracking on a channel with no
session return a failure result carrying the no-active-session message
and leave the state unchanged, while stop-tracking reports success for
the same unknown channel. -/
theorem c10_pause_resume_unknown (st : BgState) (ch : String)
    (h : getSession st ch = none) :
    pauseBackgroundTracking st ch =
      (st, ⟨false, some "No active tracking session"⟩) ∧
    resumeBackgroundTracking st ch =
      (st, ⟨false, some "No active tracking session"⟩, false) ∧
    (stopBackgroundTracking st ch).2.1 =
      ⟨true, some "No active tracking session"⟩ := by
  refine ⟨?_, ?_, ?_⟩
  all_goals
    simp [pauseBackgroundTracking, resumeBackgroundTracking,
      stopBackgroundTracking, h]

/-- Witness for c10_pause_resume_unknown at a concrete registry. -/
theorem c10_pause_resume_unknown_witness :
    pauseBackgroundTracking (⟨[]⟩ : BgState) "alice" =
      (⟨[]⟩, ⟨false, some "No active tracking session"⟩) ∧
    resumeBackgroundTracking (⟨[]⟩ : BgState) "alice" =
      (⟨[]⟩, ⟨false, some "No active tracking session"⟩, false) := by
  have h := c10_pause_resume_unknown ⟨[]⟩ "alice" rfl
  exact ⟨h.1, h.2.1⟩

/-!
## C5: effective eviction timeout
-/

/-- C5 counterexample: at 25000 authenticated users the code yields
190020 ms (the 0.167-minute step is 10.02 s per extra 10000 users),
while the claim tiers give 190000 ms. -/
theorem c5_timeout_counterexample :
    calculateEffectiveTimeout (sessionWithCount 25000) = 190020 ∧
    claimTimeoutSpec 25000 = 190000 ∧
    calculateEffectiveTimeout (sessionWithCount 25000) ≠
      claimTimeoutSpec 25000 := by
  decide

/-- C5 amended: with auto-adjust disabled or a zero count the effective
timeout is the configured static timeout; otherwise it is the tier
amount (45 s, 60 s, 90 s, or 120 s plus 10.02 s per additional 10000
users beyond 15000) plus the flat 60 s base. -/
theorem c5_effective_timeout (s : Session) :
    (s.config.autoAdjustTimeout = false →
      calculateEffectiveTimeout s = s.config.timeoutDuration) ∧
    (s.metadata.authenticatedCount = 0 →
      calculateEffectiveTimeout s = s.config.timeoutDuration) ∧
    (s.config.autoAdjustTimeout = true →
      s.metadata.authenticatedCount ≠ 0 →
      calculateEffectiveTimeout s =
        (if s.metadata.authenticatedCount < 1000 then 45000
         else if s.metadata.authenticatedCount < 5000 then 60000
         else if s.metadata.authenticatedCount < 15000 then 90000
         else 120000 +
           ((s.metadata.authenticatedCount - 15000) / 10000) * 10020) +
          60000) := by
  refine ⟨fun h => ?_, fun h => ?_, fun h hn => ?_⟩
  · simp [calculateEffectiveTimeout, h]
  · cases hadj : s.config.autoAdjustTimeout
    all_goals simp [calculateEffectiveTimeout, calculateAutoTimeout, hadj, h]
  · simp only [calculateEffectiveTimeout, calculateAutoTimeout, h, hn,
      if_false, not_true, ite_false]
    split_ifs
    all_goals simp_all
    all_goals omega

/-- Witness for c5_effective_timeout at 2000 authenticated users. -/
theorem c5_effective_timeout_witness :
    calculateEffectiveTimeout (sessionWithCount 2000) = 120000 := by
  have h := (c5_effective_timeout (sessionWithCount 2000)).2.2 rfl (by decide)
  rw [h]
  decide

/-!
## C4: effective roster-fetch interval
-/

/-- C4 counterexample: at timer establishment the viewerList cadence
for 700 authenticated users is 5000 ms (calculateAutoRequestInterval
tiers with boundary 1000), while the claim tiers with boundary 500
demand 2000 ms. -/
theorem c4_interval_counterexample :
    lookupTimer (setupBackgroundIntervals (sessionWithCount 700)).intervals
      "viewerList" = some 5000 ∧
    claimRequestIntervalSpec 700 = 2000 ∧
    lookupTimer (setupBackgroundIntervals (sessionWithCount 700)).intervals
      "viewerList" ≠ some (claimRequestIntervalSpec 700) := by
  decide

/-- C4 amended: the roster timer is established at the effective
request interval computed by calculateEffectiveRequestInterval, whose
auto-adjust tiers for a nonzero count are 5 s below 1000, 2 s below
5000 and 1 s otherwise; recomputation uses
calculateEffectiveIntervalForCount with tiers 5 s below 500, 2 s below
1000 and 1 s otherwise; on each update whose old and new counts yield
different recomputed intervals the roster timer is torn down and
rebuilt with the new cadence exactly once, and when the intervals are
equal the session is left untouched. -/
theorem c4_request_interval (s : Session) (oldCount n : Nat) :
    lookupTimer (setupBackgroundIntervals s).intervals "viewerList" =
      some (calculateEffectiveRequestInterval s) ∧
    (s.config.autoAdjustRequestInterval = true →
      s.metadata.authenticatedCount ≠ 0 →
      calculateEffectiveRequestInterval s =
        if s.metadata.authenticatedCount < 1000 then 5000
        else if s.metadata.authenticatedCount < 5000 then 2000
        else 1000) ∧
    (s.config.autoAdjustRequestInterval = true → n ≠ 0 →
      calculateEffectiveIntervalForCount s n =
        if n < 500 then 5000 else if n < 1000 then 2000 else 1000) ∧
    (s.config.autoAdjustRequestInterval = true →
      (lookupTimer s.intervals "viewerList").isSome = true →
      (calculateEffectiveIntervalForCount s oldCount ≠
          calculateEffectiveIntervalForCount s s.metadata.authenticatedCount →
        checkAndUpdateRequestInterval s oldCount =
          ({ s with
              intervals :=
                setTimer s.intervals "viewerList"
                  (calculateEffectiveIntervalForCount s
                    s.metadata.authenticatedCount) },
           true)) ∧
      (calculateEffectiveIntervalForCount s oldCount =
          calculateEffectiveIntervalForCount s s.metadata.authenticatedCount →
        checkAndUpdateRequestInterval s oldCount = (s, false))) := by
  refine ⟨?_, fun hadj hn => ?_, fun hadj hn => ?_,
    fun hadj hsome => ⟨fun hne => ?_, fun heq => ?_⟩⟩
  · simp [setupBackgroundIntervals, lookupTimer]
  · have hb : ¬ (¬ s.config.autoAdjustRequestInterval = true) := by simp [hadj]
    rw [calculateEffectiveRequestInterval, if_neg hb,
      calculateAutoRequestInterval, if_neg hn]
    split_ifs <;> rfl
  · simp [calculateEffectiveIntervalForCount, hadj, hn]
  · simp [checkAndUpdateRequestInterval, hadj, hne, hsome]
  · simp [checkAndUpdateRequestInterval, hadj, heq]

/-- Witness for c4_request_interval: a crossing from 300 to 700
authenticated users rebuilds the roster timer at 2000 ms. -/
theorem c4_request_interval_witness :
    checkAndUpdateRequestInterval establishedSession700 300 =
      ({ establishedSession700 with
          intervals := setTimer establishedSession700.intervals "viewerList"
            (calculateEffectiveIntervalForCount establishedSession700
              establishedSession700.metadata.authenticatedCount) },
       true) :=
  ((c4_request_interval establishedSession700 300 1).2.2.2 rfl
    (by decide)).1 (by decide)

/-!
## C7: eviction sweep correctness
-/

/-- The sweep loop keeps exactly the non-expired entries untouched and
removes exactly the usernames of the expired ones, in order. -/
theorem cleanupSplit_eq (now eff : Nat) (l : List Viewer) :
    cleanupSplit now eff l =
      (l.filter (fun v => !(viewerExpired now eff v)),
       (l.filter (fun v => viewerExpired now eff v)).map (·.username)) := by
  induction l with
  | nil => rfl
  | cons v rest ih =>
    cases h : viewerExpired now eff v
    · simp [cleanupSplit, List.filter_cons, h, ih]
    · simp [cleanupSplit, List.filter_cons, h, ih]

/-- C7: in every eviction sweep, each viewer whose now minus lastSeen
exceeds the effective timeout is removed from both the viewer map and
the pending-enrichment set, every viewer within the timeout is retained
untouched, and a removal is reported as a delta of removed usernames
plus the new total count; with no removal, no message is sent and the
session is unchanged. -/
theorem c7_eviction (s : Session) (now : Nat) :
    (backgroundCleanupViewers s now).1.viewers =
      s.viewers.filter
        (fun v => !(viewerExpired now (calculateEffectiveTimeout s) v)) ∧
    (backgroundCleanupViewers s now).1.pendingUserInfo =
      s.pendingUserInfo.filter (fun u =>
        !(((s.viewers.filter
              (fun v => viewerExpired now (calculateEffectiveTimeout s) v)).map
            (·.username)).contains u)) ∧
    ((s.viewers.filter
        (fun v => viewerExpired now (calculateEffectiveTimeout s) v)).map
          (·.username) = [] →
      backgroundCleanupViewers s now = (s, none)) ∧
    ((s.viewers.filter
        (fun v => viewerExpired now (calculateEffectiveTimeout s) v)).map
          (·.username) ≠ [] →
      (backgroundCleanupViewers s now).2 =
        some ⟨((s.viewers.filter
            (fun v => viewerExpired now (calculateEffectiveTimeout s) v)).map
              (·.username)).length,
          (s.viewers.filter
            (fun v => viewerExpired now (calculateEffectiveTimeout s) v)).map
              (·.username),
          ((backgroundCleanupViewers s now).1.viewers).length⟩) := by
  have hs := cleanupSplit_eq now (calculateEffectiveTimeout s) s.viewers
  have hunf : backgroundCleanupViewers s now =
      (let keep := s.viewers.filter
        (fun v => !(viewerExpired now (calculateEffectiveTimeout s) v))
       let removed := (s.viewers.filter
        (fun v => viewerExpired now (calculateEffectiveTimeout s) v)).map
          (·.username)
       let s' := { s with
        viewers := keep
        pendingUserInfo :=
          s.pendingUserInfo.filter (fun u => !(removed.contains u)) }
       if removed.length = 0 then (s', none)
       else (s', some ⟨removed.length, removed, keep.length⟩)) := by
    rw [backgroundCleanupViewers, hs]
  refine ⟨?_, ?_, fun hempty => ?_, fun hne => ?_⟩
  · rw [hunf]
    by_cases h0 : ((s.viewers.filter
        (fun v => viewerExpired now (calculateEffectiveTimeout s) v)).map
          (·.username)).length = 0
    · rw [if_pos h0]
    · rw [if_neg h0]
  · rw [hunf]
    by_cases h0 : ((s.viewers.filter
        (fun v => viewerExpired now (calculateEffectiveTimeout s) v)).map
          (·.username)).length = 0
    · rw [if_pos h0]
    · rw [if_neg h0]
  · have hfil : s.viewers.filter
        (fun v => viewerExpired now (calculateEffectiveTimeout s) v) = [] :=
      List.map_eq_nil_iff.mp hempty
    have hkeep : s.viewers.filter
        (fun v => !(viewerExpired now (calculateEffectiveTimeout s) v)) =
          s.viewers := by
      rw [List.filter_eq_self]
      intro a ha
      have h2 := (List.filter_eq_nil_iff.mp hfil) a ha
      simp at h2 ⊢
      exact h2
    rw [hunf]
    rw [hempty, hkeep]
    simp
  · rw [hunf, if_neg (by simpa [List.length_eq_zero] using hne)]

/-- Witness for c7_eviction: alice is evicted from both structures and
reported as a delta; bob is retained. -/
theorem c7_eviction_witness :
    (backgroundCleanupViewers cleanupSession 1000000).2 =
      some ⟨1, ["alice"], 1⟩ ∧
    (backgroundCleanupViewers cleanupSession 1000000).1.pendingUserInfo =
      ["bob"] := by
  have h := c7_eviction cleanupSession 1000000
  refine ⟨(h.2.2.2 (by decide)).trans (by decide), h.2.1.trans (by decide)⟩

/-!
## C6: adaptive roster concurrency
-/

/-- C6: with auto-adjust enabled, the policy returns the initial
concurrency until five samples exist; with five or more samples, a
trailing-window new-user rate below the low threshold while the current
value exceeds the reduced one yields the reduced concurrency, a rate
above the high threshold while the current value is below the initial
one yields the initial concurrency, and a rate strictly between the
thresholds leaves the current value unchanged. -/
theorem c6_adaptive_concurrency (s : Session)
    (hA : s.config.viewerListAutoAdjust = true)
    (hLH : orQ s.config.viewerListNewUserThresholdLow (5 / 100) ≤
      orQ s.config.viewerListNewUserThresholdHigh (10 / 100)) :
    (s.metadata.recentNewUserCounts.length < 5 →
      calculateOptimalViewerListConcurrency s =
        orD s.config.viewerListConcurrentCallsInitial 50) ∧
    (5 ≤ s.metadata.recentNewUserCounts.length →
      (newUserRate s < orQ s.config.viewerListNewUserThresholdLow (5 / 100) →
        orD s.config.viewerListConcurrentCallsReduced 10 <
          orD s.metadata.viewerListConcurrentCalls
            (orD s.config.viewerListConcurrentCallsInitial 50) →
        calculateOptimalViewerListConcurrency s =
          orD s.config.viewerListConcurrentCallsReduced 10) ∧
      (orQ s.config.viewerListNewUserThresholdHigh (10 / 100) < newUserRate s →
        orD s.metadata.viewerListConcurrentCalls
            (orD s.config.viewerListConcurrentCallsInitial 50) <
          orD s.config.viewerListConcurrentCallsInitial 50 →
        calculateOptimalViewerListConcurrency s =
          orD s.config.viewerListConcurrentCallsInitial 50) ∧
      (orQ s.config.viewerListNewUserThresholdLow (5 / 100) < newUserRate s →
        newUserRate s < orQ s.config.viewerListNewUserThresholdHigh (10 / 100) →
        calculateOptimalViewerListConcurrency s =
          orD s.metadata.viewerListConcurrentCalls
            (orD s.config.viewerListConcurrentCallsInitial 50))) := by
  have hb : ¬ (¬ s.config.viewerListAutoAdjust = true) := by simp [hA]
  refine ⟨fun h5 => ?_, fun h5 => ⟨fun hr hc => ?_, fun hr hc => ?_,
    fun hr1 hr2 => ?_⟩⟩
  · rw [calculateOptimalViewerListConcurrency, if_neg hb, if_pos h5]
  · rw [calculateOptimalViewerListConcurrency, if_neg hb,
      if_neg (by omega : ¬ s.metadata.recentNewUserCounts.length < 5),
      if_pos ⟨hr, hc⟩]
  · have hnotlow : ¬ (newUserRate s <
        orQ s.config.viewerListNewUserThresholdLow (5 / 100)) := by
      intro hlow
      exact absurd (lt_trans (lt_of_le_of_lt hLH hr) hlow) (lt_irrefl _)
    rw [calculateOptimalViewerListConcurrency, if_neg hb,
      if_neg (by omega : ¬ s.metadata.recentNewUserCounts.length < 5),
      if_neg (fun hand => hnotlow hand.1), if_pos ⟨hr, hc⟩]
  · have hnotlow : ¬ (newUserRate s <
        orQ s.config.viewerListNewUserThresholdLow (5 / 100)) :=
      fun hlow => absurd (lt_trans hr1 hlow) (lt_irrefl _)
    have hnothigh : ¬ (orQ s.config.viewerListNewUserThresholdHigh (10 / 100) <
        newUserRate s) :=
      fun hhigh => absurd (lt_trans hr2 hhigh) (lt_irrefl _)
    rw [calculateOptimalViewerListConcurrency, if_neg hb,
      if_neg (by omega : ¬ s.metadata.recentNewUserCounts.length < 5),
      if_neg (fun hand => hnotlow hand.1),
      if_neg (fun hand => hnothigh hand.1)]

/-- Witness for c6_adaptive_concurrency: five zero-discovery samples
reduce the concurrency from 50 to 10. -/
theorem c6_adaptive_concurrency_witness :
    calculateOptimalViewerListConcurrency concurrencySession = 10 := by
  have h := ((c6_adaptive_concurrency concurrencySession rfl
    (by norm_num [concurrencySession, sessionWithCount, sampleConfig,
      orQ])).2 (by decide)).1
    (by norm_num [newUserRate, recentSampleWindow, lastN, concurrencySession,
      sessionWithCount, sampleConfig, orQ])
    (by decide)
  exact h.trans (by decide)

/-!
## C2: rolling-window rate limit
-/

/-- Recording one request raises the rolling-window count by at most
one (and eviction of the oldest entry can only lower it). -/
theorem rim_trackDataUsage_le (now t : Int) (recent : List Int) :
    requestsInLastMinute now (trackDataUsage t recent) ≤
      requestsInLastMinute now recent + 1 := by
  unfold trackDataUsage requestsInLastMinute
  have happ : (((recent ++ [t]).filter (fun x => now - 60000 < x)).length) ≤
      ((recent.filter (fun x => now - 60000 < x)).length) + 1 := by
    rw [List.filter_append, List.length_append]
    have h1 : (List.filter (fun x => decide (now - 60000 < x)) [t]).length ≤ 1 := by
      simpa using List.length_filter_le (fun x => decide (now - 60000 < x)) [t]
    omega
  by_cases h : 1000 < (recent ++ [t]).length
  · rw [if_pos h]
    refine le_trans ?_ happ
    exact ((List.tail_sublist _).filter _).length_le
  · rw [if_neg h]
    exact happ

/-- Recording n requests raises the rolling-window count by at most n. -/
theorem rim_trackDataUsageN_le (now t : Int) (n : Nat) (recent : List Int) :
    requestsInLastMinute now (trackDataUsageN t n recent) ≤
      requestsInLastMinute now recent + n := by
  induction n generalizing recent with
  | zero => simp [trackDataUsageN]
  | succ k ih =>
    calc requestsInLastMinute now (trackDataUsageN t k (trackDataUsage t recent)) ≤
        requestsInLastMinute now (trackDataUsage t recent) + k := ih _
      _ ≤ requestsInLastMinute now recent + 1 + k :=
        Nat.add_le_add_right (rim_trackDataUsage_le now t recent) k
      _ = requestsInLastMinute now recent + (k + 1) := by omega

/-- C2 amended: the drain loop waits when the count computed from the
bounded usage record is at or above the cap, and otherwise executes a
batch of exactly min(configured concurrency, cap minus computed count,
queue length) requests, after which the computed count still does not
exceed the cap. -/
theorem c2_rate_limit (now : Int) (s : ApiState) :
    (s.queue ≠ 0 →
      s.maxRequests ≤ requestsInLastMinute now s.recentRequests →
      drainStep now s = (s, DrainAction.wait)) ∧
    (∀ n, (drainStep now s).2 = DrainAction.execute n →
      n = min s.concurrentUserInfoBatches
        (min (s.maxRequests - requestsInLastMinute now s.recentRequests)
          s.queue) ∧
      requestsInLastMinute now (drainStep now s).1.recentRequests ≤
        s.maxRequests) := by
  constructor
  · intro hq hr
    unfold drainStep
    rw [if_neg hq, if_pos hr]
  · intro n hn
    unfold drainStep at hn ⊢
    by_cases hq : s.queue = 0
    · rw [if_pos hq] at hn
      exact absurd hn (by simp)
    · rw [if_neg hq] at hn ⊢
      by_cases hr : s.maxRequests ≤ requestsInLastMinute now s.recentRequests
      · rw [if_pos hr] at hn
        exact absurd hn (by simp)
      · rw [if_neg hr] at hn ⊢
        by_cases hz : min s.concurrentUserInfoBatches
            (min (s.maxRequests - requestsInLastMinute now s.recentRequests)
              s.queue) = 0
        · rw [if_pos hz] at hn
          exact absurd hn (by simp)
        · rw [if_neg hz] at hn ⊢
          have hnm : n = min s.concurrentUserInfoBatches
              (min (s.maxRequests - requestsInLastMinute now s.recentRequests)
                s.queue) := by
            cases hn
            rfl
          subst hnm
          refine ⟨rfl, ?_⟩
          have hb := rim_trackDataUsageN_le now now
            (min s.concurrentUserInfoBatches
              (min (s.maxRequests - requestsInLastMinute now s.recentRequests)
                s.queue)) s.recentRequests
          simp only [executeBatch] at *
          omega

/-- Witness for c2_rate_limit: a single queued request on a fresh
manager is dequeued as a batch of one and the computed window count
stays within the cap. -/
theorem c2_rate_limit_witness :
    (1 : Nat) = min 50 (min (5000 - requestsInLastMinute 0 []) 1) ∧
    requestsInLastMinute 0
        (drainStep 0 ⟨1, [], [], 50, 5000⟩).1.recentRequests ≤ 5000 :=
  (c2_rate_limit 0 ⟨1, [], [], 50, 5000⟩).2 1 (by decide)

/-- Filtering a replicated list with a predicate that holds at the
element keeps every copy. -/
theorem length_filter_replicate_pos {p : Int → Bool} (n : Nat) (t : Int)
    (h : p t = true) : ((List.replicate n t).filter p).length = n := by
  induction n with
  | zero => rfl
  | succ k ih => simp [List.replicate_succ, List.filter_cons, h, ih]

/-- The rolling-window count of a fully fresh record of m entries is m. -/
theorem rim_replicate (now t : Int) (m : Nat) (h : now - 60000 < t) :
    requestsInLastMinute now (List.replicate m t) = m := by
  unfold requestsInLastMinute
  exact length_filter_replicate_pos m t (decide_eq_true h)

/-- Recording one request into a fresh record of m identical timestamps
yields a fresh record of min (m + 1) 1000 entries. -/
theorem trackDataUsage_replicate (t : Int) (m : Nat) (hm : m ≤ 1000) :
    trackDataUsage t (List.replicate m t) =
      List.replicate (min (m + 1) 1000) t := by
  unfold trackDataUsage
  rw [← List.replicate_succ']
  by_cases h : 1000 < (List.replicate (m + 1) t).length
  · rw [if_pos h]
    simp only [List.length_replicate] at h
    have hm1000 : m = 1000 := by omega
    subst hm1000
    have hmin : min (1000 + 1) 1000 = 1000 := by omega
    rw [hmin, List.replicate_succ, List.tail_cons]
  · rw [if_neg h]
    simp only [List.length_replicate] at h
    congr 1
    omega

/-- Recording n requests into a fresh record of m identical timestamps
yields a fresh record of min (m + n) 1000 entries. -/
theorem trackDataUsageN_replicate (t : Int) (n : Nat) :
    ∀ m, m ≤ 1000 →
    trackDataUsageN t n (List.replicate m t) =
      List.replicate (min (m + n) 1000) t := by
  induction n with
  | zero =>
    intro m hm
    rw [trackDataUsageN]
    congr 1
    omega
  | succ k ih =>
    intro m hm
    rw [trackDataUsageN, trackDataUsage_replicate t m hm,
      ih (min (m + 1) 1000) (min_le_right _ _)]
    congr 1
    omega

/-- Characterization of a full drain run under a constant clock with
the default configuration (concurrency 50, cap 5000): starting from a
fresh record of m entries, the loop executes the entire queue without
ever waiting, because the computed window count, bounded by the record
cap of 1000 entries, can never reach 5000. -/
theorem drain_run (now : Int) :
    ∀ fuel q m execLog, m ≤ 1000 → q ≤ 50 * fuel →
    processLoop now fuel ⟨q, List.replicate m now, execLog, 50, 5000⟩ =
      ⟨0, List.replicate (min (m + q) 1000) now,
        execLog ++ List.replicate q now, 50, 5000⟩ := by
  intro fuel
  induction fuel with
  | zero =>
    intro q m execLog hm hq
    have hq0 : q = 0 := by omega
    subst hq0
    show (⟨0, List.replicate m now, execLog, 50, 5000⟩ : ApiState) = _
    have h1 : min (m + 0) 1000 = m := by omega
    rw [h1]
    simp
  | succ k ih =>
    intro q m execLog hm hq
    by_cases hq0 : q = 0
    · subst hq0
      have hstep : drainStep now ⟨0, List.replicate m now, execLog, 50, 5000⟩ =
          (⟨0, List.replicate m now, execLog, 50, 5000⟩, DrainAction.idle) := by
        unfold drainStep
        rw [if_pos rfl]
      rw [processLoop, hstep]
      show (⟨0, List.replicate m now, execLog, 50, 5000⟩ : ApiState) = _
      have h1 : min (m + 0) 1000 = m := by omega
      rw [h1]
      simp
    · have hrim : requestsInLastMinute now (List.replicate m now) = m :=
        rim_replicate now now m (by omega)
      have hstep : drainStep now ⟨q, List.replicate m now, execLog, 50, 5000⟩ =
          (executeBatch now (min 50 q)
            ⟨q, List.replicate m now, execLog, 50, 5000⟩,
           DrainAction.execute (min 50 q)) := by
        unfold drainStep
        rw [if_neg hq0]
        simp only [hrim]
        rw [if_neg (by omega : ¬ (5000 : Nat) ≤ m)]
        rw [(by omega : min 50 (min (5000 - m) q) = min 50 q)]
        rw [if_neg (by omega : ¬ min 50 q = 0)]
      have hbatch : executeBatch now (min 50 q)
          ⟨q, List.replicate m now, execLog, 50, 5000⟩ =
          ⟨q - min 50 q, List.replicate (min (m + min 50 q) 1000) now,
            execLog ++ List.replicate (min 50 q) now, 50, 5000⟩ := by
        unfold executeBatch
        rw [trackDataUsageN_replicate now (min 50 q) m hm]
      rw [processLoop, hstep]
      show processLoop now k (executeBatch now (min 50 q)
        ⟨q, List.replicate m now, execLog, 50, 5000⟩) = _
      rw [hbatch]
      rw [ih (q - min 50 q) (min (m + min 50 q) 1000)
        (execLog ++ List.replicate (min 50 q) now) (min_le_right _ _)
        (by omega)]
      rw [List.append_assoc, ← List.replicate_add]
      have hc : min (min (m + min 50 q) 1000 + (q - min 50 q)) 1000 =
          min (m + q) 1000 := by omega
      have hq2 : min 50 q + (q - min 50 q) = q := by omega
      rw [hc, hq2]

/-- C2 counterexample: 5001 requests submitted to a fresh manager are
all executed by the drain loop with no waiting and carry timestamps
inside one trailing 60 second window, so the count of requests executed
within that window reaches 5001, strictly above the 5000 cap: the
bounded (1000-entry) usage record makes the computed window count top
out at 1000, and the claimed rolling-window bound on executed requests
fails. -/
theorem c2_counterexample :
    ((processLoop 0 200 ⟨5001, [], [], 50, 5000⟩).execLog.filter
        (fun t => (0 : Int) - 60000 < t)).length = 5001 ∧
    5000 < ((processLoop 0 200 ⟨5001, [], [], 50, 5000⟩).execLog.filter
        (fun t => (0 : Int) - 60000 < t)).length ∧
    (processLoop 0 200 ⟨5001, [], [], 50, 5000⟩).queue = 0 := by
  have h : processLoop 0 200 ⟨5001, [], [], 50, 5000⟩ =
      ⟨0, List.replicate (min (0 + 5001) 1000) 0,
        [] ++ List.replicate 5001 0, 50, 5000⟩ :=
    drain_run 0 200 5001 0 [] (by omega) (by omega)
  rw [h]
  simp only [List.nil_append]
  rw [length_filter_replicate_pos 5001 0 (by decide)]
  exact ⟨rfl, by omega, by simp⟩

/-!
## C1: single-session start and displacement notification
-/

/-- Each loop iteration of startBackgroundTracking only stops the
session and never appends a notice, because the registry lookup that
guards the notification runs after the stop already removed the
session. -/
theorem startStopStep_no_notice (channelName : String) (tabId : Nat)
    (st : BgState) (notices : List StoppedNotice) (existingChannel : String) :
    startStopStep channelName tabId (st, notices) existingChannel =
      ((stopBackgroundTracking st existingChannel).1, notices) := by
  rcases hstop : stopBackgroundTracking st existingChannel with ⟨st', r, c⟩
  have hn : getSession st' existingChannel = none := by
    have h0 := getSession_stop_none st existingChannel
    rw [hstop] at h0
    exact h0
  simp only [startStopStep, hstop, hn]

/-- The stop-all loop of startBackgroundTracking never accumulates a
displacement notice. -/
theorem startLoop_no_notices (channelName : String) (tabId : Nat) :
    ∀ (channels : List String) (st : BgState) (notices : List StoppedNotice),
      (channels.foldl (startStopStep channelName tabId) (st, notices)).2 =
        notices := by
  intro channels
  induction channels with
  | nil => intro st notices; rfl
  | cons ch t ih =>
    intro st notices
    rw [List.foldl_cons, startStopStep_no_notice]
    exact ih _ notices

/-- C1: starting tracking for a new channel stops every existing
session first and leaves exactly the new session active, but the
displacement notification promised to the superseded consumer is never
sent: the source reads the stopped channel from the registry only after
stopBackgroundTracking deleted it, so the guarded notification branch
is unreachable (evaluated here at the failing input: channel bob from
tab 2 superseding active channel alice of tab 1). -/
theorem c1_no_displacement_notification :
    (∀ (st : BgState) (channelName : String) (config : SessionConfig)
        (tabId : Nat),
      (startBackgroundTracking st channelName config tabId).2.1 = []) ∧
    (startBackgroundTracking bgAlice "bob" sampleConfig 2).2.1 = [] ∧
    (startBackgroundTracking bgAlice "bob" sampleConfig 2).1.trackingSessions.map
      Prod.fst = ["bob"] := by
  have hgen : ∀ (st : BgState) (channelName : String) (config : SessionConfig)
      (tabId : Nat),
      (startBackgroundTracking st channelName config tabId).2.1 = [] := by
    intro st channelName config tabId
    have h2 := startLoop_no_notices channelName tabId
      (st.trackingSessions.map (·.1)) st []
    rcases hfold : List.foldl (startStopStep channelName tabId) (st, [])
        (st.trackingSessions.map fun x => x.1) with ⟨st1, notices⟩
    have h3 : notices = [] := by
      rw [show (st.trackingSessions.map (·.1)).foldl
        (startStopStep channelName tabId) (st, []) = (st1, notices) from hfold]
        at h2
      exact h2
    simp only [startBackgroundTracking, hfold, h3]
  refine ⟨hgen, hgen _ _ _ _, ?_⟩
  decide

/-!
## C8: communication-failure termination and reset
-/

/-- Equation for a push attempt failing both transports on a session
whose first failure is already recorded at t0. -/
theorem sendTrackingUpdate_fail_first (st : BgState) (ch : String)
    (now : Nat) (s : Session) (t0 : Nat) (hs : getSession st ch = some s)
    (hf : s.commFailures.firstFailure = some t0) :
    sendTrackingUpdate st ch now false false =
      (if 30000 < now - t0 then
        ((stopBackgroundTracking
          (⟨mapSet st.trackingSessions ch
            { s with commFailures :=
              ⟨s.commFailures.count + 1, some t0, some now⟩ }⟩ : BgState)
          ch).1, true)
       else
        (⟨mapSet st.trackingSessions ch
          { s with commFailures :=
            ⟨s.commFailures.count + 1, some t0, some now⟩ }⟩, false)) := by
  simp only [sendTrackingUpdate, hs, hf, Bool.false_eq_true, or_self,
    if_false]

/-- Equation for a push attempt failing both transports on a session
with no recorded failure yet: the failure is recorded at the current
time and no stop can trigger. -/
theorem sendTrackingUpdate_fail_fresh (st : BgState) (ch : String)
    (now : Nat) (s : Session) (hs : getSession st ch = some s)
    (hf : s.commFailures.firstFailure = none) :
    sendTrackingUpdate st ch now false false =
      (⟨mapSet st.trackingSessions ch
        { s with commFailures :=
          ⟨s.commFailures.count + 1, some now, some now⟩ }⟩, false) := by
  simp only [sendTrackingUpdate, hs, hf, Bool.false_eq_true, or_self,
    if_false, Nat.zero_add]
  rw [if_neg (by omega : ¬ 30000 < now - now)]

/-- After the session is gone, push attempts are no-ops: nothing fires
and nothing stops again. -/
theorem runCommTrace_noop (ch : String) (evs : List PushEvent) (st : BgState)
    (h : getSession st ch = none) : runCommTrace st ch evs = (st, 0) := by
  induction evs with
  | nil => rfl
  | cons e t ih =>
    have hstep : sendTrackingUpdate st ch e.now e.tabSendOk e.runtimeSendOk =
        (st, false) := by
      unfold sendTrackingUpdate
      rw [h]
    simp only [runCommTrace, hstep, ih, Bool.false_eq_true, if_false,
      Nat.zero_add]

/-- Over an all-failing trace whose session already carries a first
failure at t0, the first event beyond the 30 second window stops the
session exactly once. -/
theorem failRun_stops (ch : String) (t0 : Nat) :
    ∀ (ts : List Nat) (st : BgState) (s : Session),
      getSession st ch = some s →
      s.commFailures.firstFailure = some t0 →
      (∃ t ∈ ts, t0 + 30000 < t) →
      getSession (runCommTrace st ch (failTrace ts)).1 ch = none ∧
      (runCommTrace st ch (failTrace ts)).2 = 1 := by
  intro ts
  induction ts with
  | nil =>
    intro st s hs hf hex
    exact absurd hex (by simp)
  | cons t ts ih =>
    intro st s hs hf hex
    have hstep := sendTrackingUpdate_fail_first st ch t s t0 hs hf
    simp only [failTrace, List.map_cons]
    by_cases htr : 30000 < t - t0
    · have hnone := getSession_stop_none
        (⟨mapSet st.trackingSessions ch
          { s with commFailures :=
            ⟨s.commFailures.count + 1, some t0, some t⟩ }⟩ : BgState) ch
      simp only [runCommTrace, hstep, if_pos htr]
      rw [runCommTrace_noop ch (List.map (fun t => ⟨t, false, false⟩) ts) _
        hnone]
      exact ⟨hnone, rfl⟩
    · have hany := any_of_lookup_some st.trackingSessions ch s hs
      have hs' : getSession
          (⟨mapSet st.trackingSessions ch
            { s with commFailures :=
              ⟨s.commFailures.count + 1, some t0, some t⟩ }⟩ : BgState)
          ch =
          some { s with commFailures :=
            ⟨s.commFailures.count + 1, some t0, some t⟩ } :=
        lookup_mapSet_self st.trackingSessions ch _ hany
      have hex' : ∃ u ∈ ts, t0 + 30000 < u := by
        rcases hex with ⟨u, hu, hlt⟩
        rcases List.mem_cons.mp hu with rfl | hu'
        · exact absurd (by omega : 30000 < u - t0) htr
        · exact ⟨u, hu', hlt⟩
      have ihh := ih _ _ hs' rfl hex'
      simp only [runCommTrace, hstep, if_neg htr]
      simp only [failTrace] at ihh
      refine ⟨ihh.1, ?_⟩
      simp only [Bool.false_eq_true, if_false, Nat.zero_add]
      exact ihh.2

/-- C8: a successful push over either transport resets the failure
counter and both failure timestamps; and under continuous failure of
both transports, the first push attempt past 30 seconds from the first
recorded failure stops the session exactly once, after which no further
attempt has any effect. -/
theorem c8_comm_failure (st : BgState) (ch : String) :
    (∀ (now : Nat) (s : Session) (tabSendOk runtimeSendOk : Bool),
      getSession st ch = some s →
      (tabSendOk = true ∨ runtimeSendOk = true) →
      sendTrackingUpdate st ch now tabSendOk runtimeSendOk =
        (⟨mapSet st.trackingSessions ch
            { s with commFailures := ⟨0, none, none⟩ }⟩, false)) ∧
    (∀ (s : Session) (t0 : Nat) (ts : List Nat),
      getSession st ch = some s →
      s.commFailures.firstFailure = none →
      (∃ t ∈ ts, t0 + 30000 < t) →
      getSession (runCommTrace st ch (failTrace (t0 :: ts))).1 ch = none ∧
      (runCommTrace st ch (failTrace (t0 :: ts))).2 = 1 ∧
      ∀ evs, runCommTrace (runCommTrace st ch (failTrace (t0 :: ts))).1 ch
          evs =
        ((runCommTrace st ch (failTrace (t0 :: ts))).1, 0)) := by
  constructor
  · intro now s tabSendOk runtimeSendOk hs hok
    rcases hok with h1 | h1
    · subst h1
      simp only [sendTrackingUpdate, hs, true_or, or_true, if_true]
    · subst h1
      simp only [sendTrackingUpdate, hs, true_or, or_true, if_true]
  · intro s t0 ts hs hf hex
    have hstep := sendTrackingUpdate_fail_fresh st ch t0 s hs hf
    have hany := any_of_lookup_some st.trackingSessions ch s hs
    have hs' : getSession
        (⟨mapSet st.trackingSessions ch
          { s with commFailures :=
            ⟨s.commFailures.count + 1, some t0, some t0⟩ }⟩ : BgState)
        ch =
        some { s with commFailures :=
          ⟨s.commFailures.count + 1, some t0, some t0⟩ } :=
      lookup_mapSet_self st.trackingSessions ch _ hany
    have ihh := failRun_stops ch t0 ts _ _ hs' rfl hex
    have hrun : getSession (runCommTrace st ch (failTrace (t0 :: ts))).1 ch =
        none ∧ (runCommTrace st ch (failTrace (t0 :: ts))).2 = 1 := by
      simp only [failTrace, List.map_cons]
      simp only [runCommTrace, hstep]
      simp only [failTrace] at ihh
      refine ⟨ihh.1, ?_⟩
      simp only [Bool.false_eq_true, if_false, Nat.zero_add]
      exact ihh.2
    exact ⟨hrun.1, hrun.2, fun evs => runCommTrace_noop ch evs _ hrun.1⟩

/-- Witness for c8_comm_failure: two failing pushes at 100 and 40101 ms
terminate the alice session exactly once. -/
theorem c8_comm_failure_witness :
    getSession (runCommTrace bgAlice "alice" (failTrace [100, 40101])).1
      "alice" = none ∧
    (runCommTrace bgAlice "alice" (failTrace [100, 40101])).2 = 1 := by
  have h := (c8_comm_failure bgAlice "alice").2
    (mkSession "alice" 1 sampleConfig) 100 [40101] rfl rfl
    ⟨40101, by simp, by omega⟩
  exact ⟨h.1, h.2.1⟩

/-!
## C3: parallel roster fetch
-/

/-- The payload loop never reassigns the cursor, so the payloads are a
replicated initial cursor. -/
theorem buildPayloads_eq_replicate (c : String) (n : Nat) :
    buildPayloads c n = List.replicate n c := by
  induction n with
  | zero => rfl
  | succ k ih => rw [buildPayloads, ih, List.replicate_succ]

/-- Every chunk produced by a positive chunk size is at most that
size. -/
theorem chunksOf_mem_length {α : Type} (n : Nat) :
    ∀ (k : Nat) (l : List α), l.length ≤ k →
      ∀ b ∈ chunksOf (n + 1) l, b.length ≤ n + 1 := by
  intro k
  induction k with
  | zero =>
    intro l hl b hb
    have hnil : l = [] := List.length_eq_zero.mp (by omega)
    subst hnil
    simp [chunksOf] at hb
  | succ k ih =>
    intro l hl b hb
    match l with
    | [] => simp [chunksOf] at hb
    | x :: xs =>
      rw [chunksOf] at hb
      rcases List.mem_cons.mp hb with rfl | hb2
      · exact List.length_take_le (n + 1) (x :: xs)
      · refine ih ((x :: xs).drop (n + 1)) ?_ b hb2
        simp only [List.length_drop] at *
        omega

/-- Chunking the empty list yields no chunks. -/
theorem chunksOf_nil {α : Type} (n : Nat) :
    chunksOf n ([] : List α) = [] := by
  cases n with
  | zero => rw [chunksOf]
  | succ k => rw [chunksOf]

/-- First-occurrence deduplication has no duplicates. -/
theorem dedupFirst_nodup : ∀ l : List String, (dedupFirst l).Nodup := by
  intro l
  induction l with
  | nil => simp [dedupFirst]
  | cons x xs ih =>
    rw [dedupFirst]
    refine List.Nodup.cons ?_ (List.Nodup.filter _ ih)
    intro hmem
    have h2 := (List.mem_filter.mp hmem).2
    simp at h2

/-- First-occurrence deduplication preserves membership. -/
theorem dedupFirst_mem (a : String) : ∀ l, a ∈ dedupFirst l ↔ a ∈ l := by
  intro l
  induction l with
  | nil => simp [dedupFirst]
  | cons x xs ih =>
    rw [dedupFirst]
    by_cases hax : a = x
    · subst hax
      simp
    · simp [List.mem_cons, List.mem_filter, hax, ih]

/-- Structural characterization of the roster batch loop: the issued
batches are a prefix of the planned batches, the accumulated usernames
are the initial page plus the contributions of the issued batches, the
loop stops exactly when it runs out of batches or the accumulation
first reaches the total, and every batch is issued only while the
accumulation is still below the total. -/
theorem rosterLoop_spec (pageFetch : String → List CommunityEdge)
    (total : Nat) :
    ∀ (chunks : List (List String)) (init : List String),
      (∃ rest,
        (rosterLoop pageFetch total chunks init).issuedBatches ++ rest =
          chunks) ∧
      (rosterLoop pageFetch total chunks init).viewers =
        init ++ (rosterLoop pageFetch total chunks init).issuedBatches.flatMap
          (batchLogins pageFetch) ∧
      ((rosterLoop pageFetch total chunks init).issuedBatches = chunks ∨
        total ≤ (rosterLoop pageFetch total chunks init).viewers.length) ∧
      (init.length < total →
        ∀ pre b post,
          (rosterLoop pageFetch total chunks init).issuedBatches =
            pre ++ b :: post →
          (init ++ pre.flatMap (batchLogins pageFetch)).length < total) := by
  intro chunks
  induction chunks with
  | nil =>
    intro init
    refine ⟨⟨[], rfl⟩, by simp [rosterLoop], Or.inl rfl, ?_⟩
    intro _ pre b post h
    exact absurd h (by simp [rosterLoop])
  | cons batch rest ihr =>
    intro init
    by_cases hstop : total ≤ (init ++ batchLogins pageFetch batch).length
    · simp only [rosterLoop, if_pos hstop]
      refine ⟨⟨rest, rfl⟩, by simp, Or.inr hstop, ?_⟩
      intro hinit pre b post h
      match pre with
      | [] =>
        simp only [List.flatMap_nil, List.append_nil]
        exact hinit
      | p :: ps =>
        have hlen := congrArg List.length h
        simp at hlen
    · obtain ⟨⟨r1, hr1⟩, hview, hstop2, hnec⟩ :=
        ihr (init ++ batchLogins pageFetch batch)
      simp only [rosterLoop, if_neg hstop]
      have hinit2 : (init ++ batchLogins pageFetch batch).length < total := by
        omega
      refine ⟨⟨r1, by rw [List.cons_append, hr1]⟩, ?_, ?_, ?_⟩
      · rw [hview]
        simp [List.append_assoc]
      · rcases hstop2 with h2 | h2
        · exact Or.inl (by rw [h2])
        · exact Or.inr h2
      · intro hinit pre b post h
        match pre with
        | [] =>
          simp only [List.flatMap_nil, List.append_nil]
          exact hinit
        | p :: ps =>
          rw [List.cons_append] at h
          injection h with h4 h5
          have h3 := hnec hinit2 ps b post h5
          rw [← h4]
          simp only [List.flatMap_cons]
          rw [← List.append_assoc]
          exact h3

/-- C3 counterexample: the source builds every additional page payload
with the cursor of the initial page (currentCursor is never advanced),
so against a backend whose page at cursor c ends with cursor d the
built payloads are c, c while the claimed chained payloads are c, d. -/
theorem c3_counterexample :
    (getViewerListParallel c3Fetch c3Edges 104 50 50).payloads =
      ["c", "c"] ∧
    chainedPayloadsSpec c3Fetch "c" 2 = ["c", "d"] ∧
    (getViewerListParallel c3Fetch c3Edges 104 50 50).payloads ≠
      chainedPayloadsSpec c3Fetch "c" 2 := by
  decide

/-- C3 amended: a parallel roster fetch whose first page reports more
than one page of population builds one payload per additional needed
page, all carrying the cursor of the last edge of the initial page (not
chained cursors), issues them in sequential batches sized to the
configured concurrency and stops issuing once the accumulated username
count (duplicates included) reaches the reported total, returning the
first-occurrence-deduplicated username set and the reported total. -/
theorem c3_roster (pageFetch : String → List CommunityEdge)
    (initialEdges : List CommunityEdge)
    (total concurrentCalls concurrentBatchCfg : Nat)
    (lastEdge : CommunityEdge)
    (hlast : initialEdges.getLast? = some lastEdge) (htotal : 100 < total)
    (hbatch : min concurrentCalls concurrentBatchCfg ≠ 0) :
    (getViewerListParallel pageFetch initialEdges total concurrentCalls
        concurrentBatchCfg).payloads =
      List.replicate ((total - initialEdges.length + 99) / 100)
        lastEdge.cursor ∧
    (getViewerListParallel pageFetch initialEdges total concurrentCalls
        concurrentBatchCfg).totalAuthenticatedCount = total ∧
    (∃ rest,
      (getViewerListParallel pageFetch initialEdges total concurrentCalls
          concurrentBatchCfg).issuedBatches ++ rest =
        chunksOf (min concurrentCalls concurrentBatchCfg)
          (List.replicate ((total - initialEdges.length + 99) / 100)
            lastEdge.cursor)) ∧
    (∀ b ∈ (getViewerListParallel pageFetch initialEdges total
        concurrentCalls concurrentBatchCfg).issuedBatches,
      b.length ≤ min concurrentCalls concurrentBatchCfg) ∧
    (getViewerListParallel pageFetch initialEdges total concurrentCalls
        concurrentBatchCfg).viewers =
      dedupFirst (initialEdges.map (·.login) ++
        (getViewerListParallel pageFetch initialEdges total concurrentCalls
          concurrentBatchCfg).issuedBatches.flatMap
            (batchLogins pageFetch)) ∧
    (getViewerListParallel pageFetch initialEdges total concurrentCalls
        concurrentBatchCfg).viewers.Nodup ∧
    (∀ u, u ∈ (getViewerListParallel pageFetch initialEdges total
        concurrentCalls concurrentBatchCfg).viewers ↔
      u ∈ initialEdges.map (·.login) ++
        (getViewerListParallel pageFetch initialEdges total concurrentCalls
          concurrentBatchCfg).issuedBatches.flatMap
            (batchLogins pageFetch)) ∧
    ((getViewerListParallel pageFetch initialEdges total concurrentCalls
        concurrentBatchCfg).issuedBatches =
      chunksOf (min concurrentCalls concurrentBatchCfg)
        (List.replicate ((total - initialEdges.length + 99) / 100)
          lastEdge.cursor) ∨
      total ≤ (initialEdges.map (·.login) ++
        (getViewerListParallel pageFetch initialEdges total concurrentCalls
          concurrentBatchCfg).issuedBatches.flatMap
            (batchLogins pageFetch)).length) ∧
    (∀ pre b post,
      (getViewerListParallel pageFetch initialEdges total concurrentCalls
        concurrentBatchCfg).issuedBatches = pre ++ b :: post →
      (initialEdges.map (·.login) ++
        pre.flatMap (batchLogins pageFetch)).length < total) := by
  have hne : ¬ total ≤ 100 := by omega
  have hunf : getViewerListParallel pageFetch initialEdges total
      concurrentCalls concurrentBatchCfg =
      ⟨dedupFirst (rosterLoop pageFetch total
          (chunksOf (min concurrentCalls concurrentBatchCfg)
            (List.replicate ((total - initialEdges.length + 99) / 100)
              lastEdge.cursor))
          (initialEdges.map (·.login))).viewers,
        total,
        (rosterLoop pageFetch total
          (chunksOf (min concurrentCalls concurrentBatchCfg)
            (List.replicate ((total - initialEdges.length + 99) / 100)
              lastEdge.cursor))
          (initialEdges.map (·.login))).issuedBatches,
        List.replicate ((total - initialEdges.length + 99) / 100)
          lastEdge.cursor⟩ := by
    simp only [getViewerListParallel, hlast, if_neg hne,
      buildPayloads_eq_replicate]
  obtain ⟨⟨r1, hr1⟩, hview, hstop, hnec⟩ := rosterLoop_spec pageFetch total
    (chunksOf (min concurrentCalls concurrentBatchCfg)
      (List.replicate ((total - initialEdges.length + 99) / 100)
        lastEdge.cursor))
    (initialEdges.map (·.login))
  rw [hunf]
  obtain ⟨k, hk⟩ := Nat.exists_eq_succ_of_ne_zero hbatch
  refine ⟨rfl, rfl, ⟨r1, hr1⟩, ?_, ?_, dedupFirst_nodup _, ?_, ?_, ?_⟩
  · intro b hb
    have hb2 : b ∈ chunksOf (min concurrentCalls concurrentBatchCfg)
        (List.replicate ((total - initialEdges.length + 99) / 100)
          lastEdge.cursor) := by
      rw [← hr1]
      exact List.mem_append_left _ hb
    rw [hk] at hb2 ⊢
    exact chunksOf_mem_length k _ _ (le_refl _) b hb2
  · rw [hview]
  · intro u
    rw [hview]
    exact dedupFirst_mem u _
  · rcases hstop with h2 | h2
    · exact Or.inl h2
    · rw [hview] at h2
      exact Or.inr h2
  · intro pre b post h
    by_cases hrem : total - initialEdges.length = 0
    · have hpages : (total - initialEdges.length + 99) / 100 = 0 := by omega
      rw [hpages] at hr1 h
      have hchunks : chunksOf (min concurrentCalls concurrentBatchCfg)
          (List.replicate 0 lastEdge.cursor) = ([] : List (List String)) :=
        chunksOf_nil _
      rw [hchunks] at hr1 h
      have hissued := (List.append_eq_nil.mp hr1).1
      rw [hissued] at h
      simp at h
    · have hinit : (initialEdges.map (·.login)).length < total := by
        simp only [List.length_map]
        omega
      exact hnec hinit pre b post h

/-- Witness for c3_roster at the small synthetic backend: a reported
total of 104 over an initial page of 3 edges needs 2 additional
payloads, both carrying the initial cursor. -/
theorem c3_roster_witness :
    (getViewerListParallel c3Fetch c3Edges 104 50 50).payloads =
      List.replicate 2 "c" ∧
    (getViewerListParallel c3Fetch c3Edges 104 50 50).totalAuthenticatedCount =
      104 := by
  have h := c3_roster c3Fetch c3Edges 104 50 50 ⟨"u3", "c"⟩ (by decide)
    (by decide) (by decide)
  exact ⟨h.1, h.2.1⟩

end ViewerMetrics
